import Mathlib

/-!
Shallow embedding of `src/kaligpt.py` (KaliGPT, NUbem000/NubemSecurity):
a command-line chat client with multi-provider support.  Python dicts,
lists and strings manipulated by the script are modelled by the `Json`
type below; functions that may raise an uncaught exception return
`Option` (with `none` for the raising run).  Terminal output is modelled
as a list of structured output events, one per `print` call of interest.
-/

namespace KaliGPT

/-- JSON-like values: the Python values the script passes around
(`json.load` results, request payloads, response bodies, strings,
`None`).  Python `None` is `Json.null`. -/
inductive Json where
  | null : Json
  | bool (b : Bool) : Json
  | num (n : Int) : Json
  | str (s : String) : Json
  | arr (xs : List Json) : Json
  | obj (fields : List (String × Json)) : Json

/-- Python dict indexing `d[k]`: `some` the value, `none` when the access
raises (missing key, or the value is not a dict). -/
def Json.get? : Json → String → Option Json
  | .obj fields, k => fields.lookup k
  | _, _ => none

/-- Python list indexing `l[i]` for `i ≥ 0`: `some` the element, `none`
when the access raises (out of range, or the value is not a list). -/
def Json.idx? : Json → Nat → Option Json
  | .arr xs, i => xs.get? i
  | _, _ => none

/-- Python truthiness of a value, as tested by `if response:`. -/
def Json.truthy : Json → Bool
  | .null => false
  | .bool b => b
  | .num n => n != 0
  | .str s => s != ""
  | .arr xs => !xs.isEmpty
  | .obj fields => !fields.isEmpty

/-- Python `s.startswith(pre)`. -/
def startswith (s pre : String) : Bool :=
  pre.data.isPrefixOf s.data

/-- Python `s.strip()`: remove leading and trailing whitespace. -/
def pyStrip (s : String) : String :=
  ⟨((s.data.dropWhile Char.isWhitespace).reverse.dropWhile Char.isWhitespace).reverse⟩

/-- Python `s.lower()`: lower-case every character. -/
def pyLower (s : String) : String :=
  ⟨s.data.map Char.toLower⟩

/-- The `PROVIDERS` table of `kaligpt.py`: insertion-ordered mapping
from provider id to its key-format predicate. -/
def PROVIDERS : List (String × (String → Bool)) :=
  [("openai", fun k => startswith k "sk-"),
   ("gemini", fun k => startswith k "AIza"),
   ("grok", fun k => startswith k "gsk-"),
   ("deepseek", fun k => startswith k "dsk-")]

/-- `detect_provider` of `kaligpt.py`: first provider whose check
accepts the key, else `None`. -/
def detect_provider (api_key : String) : Option String :=
  match PROVIDERS.find? (fun p => p.2 api_key) with
  | some p => some p.1
  | none => none

/-- The `ENDPOINTS` table of `kaligpt.py` (the grok and deepseek entries
are marked as placeholders in the source, but are real entries that the
request path uses). -/
def ENDPOINTS : List (String × String) :=
  [("openai", "https://api.openai.com/v1/chat/completions"),
   ("gemini", "https://generativelanguage.googleapis.com/v1beta/models/gemini-pro:generateContent"),
   ("grok", "https://api.grok.x.ai/v1/chat/completions"),
   ("deepseek", "https://api.deepseek.com/v1/chat/completions")]

/-- The `MODELS` table of `kaligpt.py`. -/
def MODELS : List (String × String) :=
  [("openai", "gpt-4"),
   ("gemini", "gemini-pro"),
   ("grok", "grok-1"),
   ("deepseek", "deepseek-chat")]

/-- The `DEFAULT_HEADERS` constant of `kaligpt.py`. -/
def DEFAULT_HEADERS : List (String × String) :=
  [("Content-Type", "application/json")]

/-- One transcript entry, as appended by `chat_loop`:
`{"role": ..., "content": ...}`.  The content is a `Json` value because
the assistant content is whatever `extract_reply` returned (normally a
string); user content is always `Json.str` of the input line. -/
structure Turn where
  role : String
  content : Json

/-- A transcript dict list rendered as the JSON value placed in the
`"messages"` field of an OpenAI-style payload. -/
def messagesJson (history : List Turn) : Json :=
  .arr (history.map fun m => .obj [("role", .str m.role), ("content", m.content)])

/-- `build_payload` of `kaligpt.py`.  `none` models an uncaught
exception: `MODELS[provider]` raising `KeyError` for a provider outside
the table, or `history[-1]` raising `IndexError` on an empty history in
the gemini branch.  The `api_key` argument is accepted and unused,
exactly as in the source. -/
def build_payload (provider : String) (api_key : String) (history : List Turn) :
    Option Json :=
  if provider = "openai" then
    (MODELS.lookup provider).map fun m =>
      .obj [("model", .str m), ("messages", messagesJson history)]
  else if provider = "gemini" then
    (history.getLast?).map fun m =>
      .obj [("contents", .arr [.obj [("parts", .arr [.obj [("text", m.content)]])]])]
  else
    (MODELS.lookup provider).map fun m =>
      .obj [("model", .str m), ("messages", messagesJson history)]

/-- An outbound HTTP POST as issued by `requests.post` in
`send_request`. -/
structure HttpRequest where
  url : String
  payload : Json
  headers : List (String × String)

/-- The response the network produces for a request: status code, body
text, and the result of `res.json()` (`none` when the body is not valid
JSON, so that `res.json()` raises). -/
structure HttpResponse where
  status : Nat
  text : String
  jsonBody : Option Json

/-- Structured model of the `print` calls of `send_request` and
`chat_loop`; each constructor records one printed line with the data
interpolated into it. -/
inductive OutEvent where
  /-- `❌ API Error: {status} - {text}` -/
  | apiError (status : Nat) (text : String)
  /-- `❌ Request failed: {e}` (the caught exception rendering is
  abstracted away) -/
  | requestFailed
  /-- `{bot} 🧠 ➤ {reply}` -/
  | botLine (bot : String) (reply : Json)
  /-- `⚠️ Failed to get a response.` -/
  | failedResponse
  /-- `🔄 Chat history cleared.` -/
  | historyCleared

/-- The rendered text of the `❌ API Error: {status} - {text}` line. -/
def renderApiError (status : Nat) (text : String) : String :=
  "❌ API Error: " ++ toString status ++ " - " ++ text

/-- What one call of `send_request` did: its return value, the requests
it posted, and the lines it printed. -/
structure SendResult where
  result : Option Json
  requests : List HttpRequest
  output : List OutEvent

/-- `send_request` of `kaligpt.py`.  The network is an explicit
parameter `world` mapping each issued request to its response.  Every
branch of the source posts exactly one request (gemini with the key as a
URL query parameter, every other known provider with a bearer header);
an unknown provider raises `KeyError` on `ENDPOINTS[provider]`, which
the enclosing `try` catches and turns into `None`. -/
def send_request (provider : String) (api_key : String) (payload : Json)
    (world : HttpRequest → HttpResponse) : SendResult :=
  match ENDPOINTS.lookup provider with
  | none => { result := none, requests := [], output := [.requestFailed] }
  | some endpoint =>
    let req : HttpRequest :=
      if provider = "gemini" then
        { url := endpoint ++ "?key=" ++ api_key, payload := payload,
          headers := DEFAULT_HEADERS }
      else
        { url := endpoint, payload := payload,
          headers := DEFAULT_HEADERS ++ [("Authorization", "Bearer " ++ api_key)] }
    let res := world req
    if res.status = 200 then
      match res.jsonBody with
      | some j => { result := some j, requests := [req], output := [] }
      | none => { result := none, requests := [req], output := [.requestFailed] }
    else
      { result := none, requests := [req],
        output := [.apiError res.status res.text] }

/-- The fixed head of the string `extract_reply` returns when the JSON
path lookup raises (`⚠️ Error extracting reply: {e}`; the exception
rendering after the colon is abstracted away). -/
def extractErrorText : String := "⚠️ Error extracting reply"

/-- The `data['choices'][0]['message']['content']` lookup of
`extract_reply` (openai / deepseek / grok branch); `none` when any step
raises. -/
def choicesPath (data : Json) : Option Json :=
  ((data.get? "choices").bind (fun c => c.idx? 0)).bind
    (fun c => (c.get? "message").bind (fun m => m.get? "content"))

/-- The `data['candidates'][0]['content']['parts'][0]['text']` lookup of
`extract_reply` (gemini branch); `none` when any step raises. -/
def candidatesPath (data : Json) : Option Json :=
  ((data.get? "candidates").bind (fun c => c.idx? 0)).bind
    (fun c => ((c.get? "content").bind (fun p => p.get? "parts")).bind
      (fun p => (p.idx? 0).bind (fun q => q.get? "text")))

/-- `extract_reply` of `kaligpt.py`.  The path lookups may raise at any
step; the enclosing `try` turns any such failure into the error string.
A provider matching no branch falls off the end of the function and
returns Python `None` (`Json.null`). -/
def extract_reply (provider : String) (data : Json) : Json :=
  if provider = "openai" ∨ provider = "deepseek" ∨ provider = "grok" then
    match choicesPath data with
    | some v => v
    | none => .str extractErrorText
  else if provider = "gemini" then
    match candidatesPath data with
    | some v => v
    | none => .str extractErrorText
  else
    .null

/-- The state of the persisted config file at `CONFIG_PATH`:
absent, present with content parsing to the JSON document `j`, or
present with content that is not valid JSON. -/
inductive FileState where
  | absent
  | wellFormed (j : Json)
  | malformed

/-- What `load_config` produces: the loaded document, or a propagating
`json.JSONDecodeError` (there is no `try` around `json.load` in
`load_config`, and no handler in `__main__`). -/
inductive LoadResult where
  | ok (j : Json)
  | parseError

/-- `load_config` of `kaligpt.py`: return `{}` when the file is absent,
otherwise `json.load` its content — which raises on malformed JSON. -/
def load_config : FileState → LoadResult
  | .absent => .ok (.obj [])
  | .wellFormed j => .ok j
  | .malformed => .parseError

/-- `save_config` of `kaligpt.py`: overwrite the file with
`json.dump(data)`.  The file is modelled by the document its content
parses to, so the resulting state is `wellFormed data` (for the
JSON-serialisable dicts the script saves, `json.dump` then `json.load`
reproduces an equal value). -/
def save_config (data : Json) : FileState :=
  .wellFormed data

/-- The four-field configuration record the script saves: `api_key`,
`provider`, `user`, `bot`, all strings. -/
structure Config where
  api_key : String
  provider : String
  user : String
  bot : String

/-- The JSON document `setup` saves for a configuration. -/
def configToJson (c : Config) : Json :=
  .obj [("api_key", .str c.api_key), ("provider", .str c.provider),
        ("user", .str c.user), ("bot", .str c.bot)]

/-- Reading a configuration back out of a loaded document by the field
accesses the script performs (`config['api_key']`, `config['provider']`,
`config['user']`, `config['bot']`); `none` when an access raises or a
field is not a string. -/
def jsonToConfig (j : Json) : Option Config :=
  match j.get? "api_key", j.get? "provider", j.get? "user", j.get? "bot" with
  | some (.str a), some (.str p), some (.str u), some (.str b) =>
    some { api_key := a, provider := p, user := u, bot := b }
  | _, _, _, _ => none

/-- The three interactive answers `setup` reads from stdin: the API key,
the user name and the bot name. -/
structure SetupInputs where
  api_key : String
  user : String
  bot : String

/-- `setup` of `kaligpt.py`: strip the pasted key, detect its provider
(`sys.exit(1)` — modelled as `none` — when detection fails), read the
two names (empty after strip falls back to `"You"` / `"Bot"` via
Python's `or`), and save the config file.  Returns the file state after
the save.  `setup` reads only its interactive prompts: the source
contains no `os.environ` or `os.getenv` access. -/
def setup (inputs : SetupInputs) : Option FileState :=
  let api_key := pyStrip inputs.api_key
  match detect_provider api_key with
  | none => none
  | some provider =>
    let user := pyStrip inputs.user
    let bot := pyStrip inputs.bot
    some (save_config (configToJson
      { api_key := api_key, provider := provider,
        user := if user = "" then "You" else user,
        bot := if bot = "" then "Bot" else bot }))

/-- How the `__main__` block ends up, before any chat turn happens. -/
inductive MainOutcome where
  /-- an uncaught exception terminates the process -/
  | crashed
  /-- `chat_loop(config)` is entered with this config document -/
  | ranChat (config : Json)
  /-- `setup` called `sys.exit(1)` on an unknown key format -/
  | exitedSetup

/-- The `__main__` block of `kaligpt.py`: load the config, run `setup`
and reload when it has no truthy `api_key`, then enter `chat_loop`.  The
process environment is passed in as `env` (the value of the API-key
environment variable, if any) to express what the script does with it:
nothing — no line of the source reads `os.environ` or `os.getenv`, so
the body never consults `env`.  `config.get("api_key")` raises
`AttributeError` when the loaded document is not a dict. -/
def main_start (env : Option String) (fs : FileState) (inputs : SetupInputs) :
    MainOutcome :=
  match load_config fs with
  | .parseError => .crashed
  | .ok config =>
    match config with
    | .obj _ =>
      if (match config.get? "api_key" with
          | some v => v.truthy
          | none => false) then
        .ranChat config
      else
        match setup inputs with
        | none => .exitedSetup
        | some fs1 =>
          match load_config fs1 with
          | .parseError => .crashed
          | .ok config1 => .ranChat config1
    | _ => .crashed

/-- The state one iteration of `chat_loop` acts on: the configuration
dict (read-only in the loop body), the persisted config file (never
touched by the loop), and the in-memory transcript `history`. -/
structure SessionState where
  config : Config
  fileState : FileState
  history : List Turn

/-- What one iteration of the `while True` body of `chat_loop` did:
the state afterwards, whether `break` ran (`/exit`), the HTTP requests
posted, and the lines printed. -/
structure StepResult where
  state : SessionState
  exited : Bool
  requests : List HttpRequest
  output : List OutEvent

/-- One iteration of the `chat_loop` body of `kaligpt.py`, on the raw
line read by `input(...)`.  The line is stripped; the three commands are
recognised case-insensitively; any other line — including the empty
string — is appended as a user turn and sent.  When `send_request`
returns a truthy value, `extract_reply`'s result is printed and appended
as an assistant turn; otherwise `⚠️ Failed to get a response.` is
printed.  `none` models an exception the loop's `except
KeyboardInterrupt` does not catch (e.g. `KeyError` in `build_payload`
for an unknown provider), which crashes the process.  The screen-clear
side effect of `/clear` (`os.system("clear")`) is terminal I/O and not
recorded. -/
def chat_step (s : SessionState) (rawInput : String)
    (world : HttpRequest → HttpResponse) : Option StepResult :=
  let user_input := pyStrip rawInput
  if pyLower user_input = "/exit" then
    some { state := s, exited := true, requests := [], output := [] }
  else if pyLower user_input = "/clear" then
    some { state := s, exited := false, requests := [], output := [] }
  else if pyLower user_input = "/reset" then
    some { state := { s with history := [] }, exited := false,
           requests := [], output := [.historyCleared] }
  else
    let history1 := s.history ++ [{ role := "user", content := .str user_input }]
    match build_payload s.config.provider s.config.api_key history1 with
    | none => none
    | some payload =>
      let sr := send_request s.config.provider s.config.api_key payload world
      match sr.result with
      | some response =>
        if response.truthy then
          let bot_reply := extract_reply s.config.provider response
          some { state := { s with history :=
                   history1 ++ [{ role := "assistant", content := bot_reply }] },
                 exited := false, requests := sr.requests,
                 output := sr.output ++ [.botLine s.config.bot bot_reply] }
        else
          some { state := { s with history := history1 },
                 exited := false, requests := sr.requests,
                 output := sr.output ++ [.failedResponse] }
      | none =>
        some { state := { s with history := history1 },
               exited := false, requests := sr.requests,
               output := sr.output ++ [.failedResponse] }

/-- C1: every key starting with a provider's canonical prefix is mapped by
`detect_provider` to that provider's identifier, and a key matching no
prefix is mapped to `none` (Unknown). -/
theorem detect_provider_canonical (k : String) :
    (startswith k "sk-" = true → detect_provider k = some "openai") ∧
    (startswith k "AIza" = true → detect_provider k = some "gemini") ∧
    (startswith k "gsk-" = true → detect_provider k = some "grok") ∧
    (startswith k "dsk-" = true → detect_provider k = some "deepseek") ∧
    (startswith k "sk-" = false → startswith k "AIza" = false →
      startswith k "gsk-" = false → startswith k "dsk-" = false →
      detect_provider k = none) := by
  have head : ∀ (pre : String) (c : Char) (rest : List Char),
      pre.data = c :: rest → startswith k pre = true →
      k.data.head? = some c := by
    intro pre c rest hpre hs
    unfold startswith at hs
    rw [hpre] at hs
    cases hk : k.data with
    | nil => rw [hk] at hs; simp [List.isPrefixOf] at hs
    | cons a as =>
      rw [hk] at hs
      simp only [List.isPrefixOf, List.head?, Bool.and_eq_true, beq_iff_eq] at hs ⊢
      exact congrArg some hs.1.symm
  refine ⟨?_, ?_, ?_, ?_, ?_⟩
  · intro h1
    simp only [detect_provider, PROVIDERS, List.find?, h1]
  · intro h2
    have hno : startswith k "sk-" = false := by
      by_contra hc
      have h1 : startswith k "sk-" = true := by
        cases h : startswith k "sk-" with
        | true => rfl
        | false => exact absurd h hc
      have e1 := head "sk-" 's' ['k', '-'] rfl h1
      have e2 := head "AIza" 'A' ['I', 'z', 'a'] rfl h2
      rw [e1] at e2
      simp at e2
    simp only [detect_provider, PROVIDERS, List.find?, hno, h2]
  · intro h3
    have hno1 : startswith k "sk-" = false := by
      by_contra hc
      have h1 : startswith k "sk-" = true := by
        cases h : startswith k "sk-" with
        | true => rfl
        | false => exact absurd h hc
      have e1 := head "sk-" 's' ['k', '-'] rfl h1
      have e3 := head "gsk-" 'g' ['s', 'k', '-'] rfl h3
      rw [e1] at e3
      simp at e3
    have hno2 : startswith k "AIza" = false := by
      by_contra hc
      have h2 : startswith k "AIza" = true := by
        cases h : startswith k "AIza" with
        | true => rfl
        | false => exact absurd h hc
      have e2 := head "AIza" 'A' ['I', 'z', 'a'] rfl h2
      have e3 := head "gsk-" 'g' ['s', 'k', '-'] rfl h3
      rw [e2] at e3
      simp at e3
    simp only [detect_provider, PROVIDERS, List.find?, hno1, hno2, h3]
  · intro h4
    have hno1 : startswith k "sk-" = false := by
      by_contra hc
      have h1 : startswith k "sk-" = true := by
        cases h : startswith k "sk-" with
        | true => rfl
        | false => exact absurd h hc
      have e1 := head "sk-" 's' ['k', '-'] rfl h1
      have e4 := head "dsk-" 'd' ['s', 'k', '-'] rfl h4
      rw [e1] at e4
      simp at e4
    have hno2 : startswith k "AIza" = false := by
      by_contra hc
      have h2 : startswith k "AIza" = true := by
        cases h : startswith k "AIza" with
        | true => rfl
        | false => exact absurd h hc
      have e2 := head "AIza" 'A' ['I', 'z', 'a'] rfl h2
      have e4 := head "dsk-" 'd' ['s', 'k', '-'] rfl h4
      rw [e2] at e4
      simp at e4
    have hno3 : startswith k "gsk-" = false := by
      by_contra hc
      have h3 : startswith k "gsk-" = true := by
        cases h : startswith k "gsk-" with
        | true => rfl
        | false => exact absurd h hc
      have e3 := head "gsk-" 'g' ['s', 'k', '-'] rfl h3
      have e4 := head "dsk-" 'd' ['s', 'k', '-'] rfl h4
      rw [e3] at e4
      simp at e4
    simp only [detect_provider, PROVIDERS, List.find?, hno1, hno2, hno3, h4]
  · intro h1 h2 h3 h4
    simp only [detect_provider, PROVIDERS, List.find?, h1, h2, h3, h4]

/-- Witness for C1 at concrete keys. -/
theorem detect_provider_canonical_witness :
    detect_provider "sk-abc123" = some "openai" ∧
    detect_provider "AIzaXYZ" = some "gemini" ∧
    detect_provider "hello" = none :=
  ⟨(detect_provider_canonical "sk-abc123").1 (by decide),
   (detect_provider_canonical "AIzaXYZ").2.1 (by decide),
   (detect_provider_canonical "hello").2.2.2.2 (by decide) (by decide)
     (by decide) (by decide)⟩

/-- Characterisation helper: the outcome of posting `req` against the
network `world`, the common shape of every successful-lookup branch of
`send_request`. -/
def sendOutcome (req : HttpRequest) (world : HttpRequest → HttpResponse) :
    SendResult :=
  let res := world req
  if res.status = 200 then
    match res.jsonBody with
    | some j => { result := some j, requests := [req], output := [] }
    | none => { result := none, requests := [req], output := [.requestFailed] }
  else
    { result := none, requests := [req],
      output := [.apiError res.status res.text] }

/-- `sendOutcome` with the `let` expanded. -/
theorem sendOutcome_eq (req : HttpRequest) (world : HttpRequest → HttpResponse) :
    sendOutcome req world =
      if (world req).status = 200 then
        match (world req).jsonBody with
        | some j => { result := some j, requests := [req], output := [] }
        | none => { result := none, requests := [req], output := [.requestFailed] }
      else
        { result := none, requests := [req],
          output := [.apiError (world req).status (world req).text] } := rfl

/-- Whatever the network answers, `sendOutcome` records exactly the one
posted request. -/
theorem sendOutcome_requests (req : HttpRequest)
    (world : HttpRequest → HttpResponse) :
    (sendOutcome req world).requests = [req] := by
  rw [sendOutcome_eq]
  split
  · split <;> rfl
  · rfl

/-- A non-200 answer makes `sendOutcome` return `none` and print the
API-error line. -/
theorem sendOutcome_not200 (req : HttpRequest)
    (world : HttpRequest → HttpResponse)
    (h : (world req).status ≠ 200) :
    sendOutcome req world =
      { result := none, requests := [req],
        output := [.apiError (world req).status (world req).text] } := by
  rw [sendOutcome_eq, if_neg h]

/-- A 200 answer with JSON body `j` makes `sendOutcome` return `j`. -/
theorem sendOutcome_ok (req : HttpRequest)
    (world : HttpRequest → HttpResponse)
    (h200 : (world req).status = 200) (j : Json)
    (hj : (world req).jsonBody = some j) :
    sendOutcome req world = { result := some j, requests := [req], output := [] } := by
  rw [sendOutcome_eq, if_pos h200, hj]

/-- C2, counterexample to the claim as stated: with the configured
provider Grok, `send_request` does post an outbound HTTP request (one
request is recorded), and it returns the network's live answer rather
than any fixed unavailable response. -/
theorem grok_unavailable_counterexample :
    (send_request "grok" "gsk-key" (Json.obj [])
        (fun _ => ⟨200, "ok", some (Json.str "live")⟩)).requests.length = 1 ∧
    (send_request "grok" "gsk-key" (Json.obj [])
        (fun _ => ⟨200, "ok", some (Json.str "live")⟩)).result =
      some (Json.str "live") :=
  ⟨rfl, rfl⟩

/-- C2, amended: the Grok branch is not special-cased: `build_payload`
builds the generic OpenAI-style body with model `grok-1`, and
`send_request` posts exactly one request to the placeholder Grok
endpoint with a bearer-token header — there is no fixed unavailable
response and the network-call branch is always taken. -/
theorem grok_adapter_networks (api_key : String) (history : List Turn)
    (payload : Json) (world : HttpRequest → HttpResponse) :
    build_payload "grok" api_key history =
      some (Json.obj [("model", Json.str "grok-1"),
        ("messages", messagesJson history)]) ∧
    (send_request "grok" api_key payload world).requests =
      [{ url := "https://api.grok.x.ai/v1/chat/completions",
         payload := payload,
         headers := DEFAULT_HEADERS ++ [("Authorization", "Bearer " ++ api_key)] }] := by
  refine ⟨rfl, ?_⟩
  exact sendOutcome_requests
    { url := "https://api.grok.x.ai/v1/chat/completions", payload := payload,
      headers := DEFAULT_HEADERS ++ [("Authorization", "Bearer " ++ api_key)] }
    world

/-- C3: for every non-empty transcript, the Gemini payload places the
latest turn's content at `contents[0].parts[0].text` and contains
nothing else of the transcript — any transcript with the same last
entry produces the identical payload. -/
theorem gemini_payload_latest_only (api_key : String) (history : List Turn)
    (h : history ≠ []) :
    build_payload "gemini" api_key history =
      some (Json.obj [("contents", Json.arr [Json.obj [("parts",
        Json.arr [Json.obj [("text", (history.getLast h).content)]])]])]) ∧
    ∀ history2 : List Turn, history2.getLast? = history.getLast? →
      build_payload "gemini" api_key history2 =
        build_payload "gemini" api_key history := by
  constructor
  · rw [show build_payload "gemini" api_key history = (history.getLast?).map
        (fun m => Json.obj [("contents", Json.arr [Json.obj [("parts",
          Json.arr [Json.obj [("text", m.content)]])]])]) from rfl,
      List.getLast?_eq_getLast_of_ne_nil h]
    rfl
  · intro history2 h2
    rw [show build_payload "gemini" api_key history2 = (history2.getLast?).map
        (fun m => Json.obj [("contents", Json.arr [Json.obj [("parts",
          Json.arr [Json.obj [("text", m.content)]])]])]) from rfl,
      show build_payload "gemini" api_key history = (history.getLast?).map
        (fun m => Json.obj [("contents", Json.arr [Json.obj [("parts",
          Json.arr [Json.obj [("text", m.content)]])]])]) from rfl,
      h2]

/-- Witness for C3 on a three-turn transcript. -/
theorem gemini_payload_latest_only_witness :
    build_payload "gemini" "AIzaKey"
        [⟨"user", Json.str "first"⟩, ⟨"assistant", Json.str "second"⟩,
         ⟨"user", Json.str "latest"⟩] =
      some (Json.obj [("contents", Json.arr [Json.obj [("parts",
        Json.arr [Json.obj [("text", Json.str "latest")]])]])]) :=
  (gemini_payload_latest_only "AIzaKey"
    [⟨"user", Json.str "first"⟩, ⟨"assistant", Json.str "second"⟩,
     ⟨"user", Json.str "latest"⟩] (List.cons_ne_nil _ _)).1

/-- C6, counterexample to the claim as stated: on a malformed config
file the `__main__` block crashes (the `json.load` exception is
uncaught), whereas with the file absent the very same inputs proceed
through setup and reach the chat loop — so malformed is not reported
and then treated as Absent. -/
theorem malformed_config_counterexample :
    main_start none FileState.malformed ⟨"sk-abc123", "neo", "tri"⟩ =
      MainOutcome.crashed ∧
    main_start none FileState.absent ⟨"sk-abc123", "neo", "tri"⟩ =
      MainOutcome.ranChat (configToJson
        ⟨"sk-abc123", "openai", "neo", "tri"⟩) :=
  ⟨rfl, rfl⟩

/-- C6, amended: a malformed persisted config makes `load_config` raise
a parse error that nothing catches, so the process terminates instead
of warning and falling back to the setup flow. -/
theorem malformed_config_crashes (env : Option String) (inputs : SetupInputs) :
    load_config FileState.malformed = LoadResult.parseError ∧
    main_start env FileState.malformed inputs = MainOutcome.crashed :=
  ⟨rfl, rfl⟩

/-- C7, counterexample to the claim as stated: with an API-key
environment variable present and non-empty (`sk-envkey`), the program
still runs the interactive setup prompt and uses the typed key
(`AIzaTyped`, detected as gemini), not the environment's key. -/
theorem env_key_counterexample :
    main_start (some "sk-envkey") FileState.absent ⟨" AIzaTyped ", "", ""⟩ =
      MainOutcome.ranChat (Json.obj
        [("api_key", Json.str "AIzaTyped"), ("provider", Json.str "gemini"),
         ("user", Json.str "You"), ("bot", Json.str "Bot")]) :=
  rfl

/-- C7, amended: the script never consults the environment for the API
key — the run is identical whatever the environment variable holds, and
the key comes only from the config file or the interactive prompt. -/
theorem env_key_ignored (env : Option String) (fs : FileState)
    (inputs : SetupInputs) :
    main_start env fs inputs = main_start none fs inputs :=
  rfl

/-- C9: saving a four-string configuration and loading it back yields
the document that was saved, and reading its fields the way the script
does recovers the configuration exactly (round-trip). -/
theorem config_roundtrip (c : Config) :
    load_config (save_config (configToJson c)) = LoadResult.ok (configToJson c) ∧
    jsonToConfig (configToJson c) = some c :=
  ⟨rfl, rfl⟩

/-- For each known provider and non-empty history, `build_payload`
returns some payload (no branch raises). -/
theorem build_payload_known (provider api_key : String) (history : List Turn)
    (hp : provider = "openai" ∨ provider = "gemini" ∨ provider = "grok" ∨
      provider = "deepseek")
    (hne : history ≠ []) :
    ∃ payload, build_payload provider api_key history = some payload := by
  rcases hp with h | h | h | h <;> subst h
  · exact ⟨_, rfl⟩
  · rw [show build_payload "gemini" api_key history = (history.getLast?).map
        (fun m => Json.obj [("contents", Json.arr [Json.obj [("parts",
          Json.arr [Json.obj [("text", m.content)]])]])]) from rfl,
      List.getLast?_eq_getLast_of_ne_nil hne]
    exact ⟨_, rfl⟩
  · exact ⟨_, rfl⟩
  · exact ⟨_, rfl⟩

/-- One chat iteration on a non-command line, with the payload given:
the user turn is appended and the rest is determined by
`send_request`'s result. -/
theorem chat_step_send (cfg : Config) (fs : FileState) (history : List Turn)
    (raw : String) (world : HttpRequest → HttpResponse) (payload : Json)
    (h1 : pyLower (pyStrip raw) ≠ "/exit")
    (h2 : pyLower (pyStrip raw) ≠ "/clear")
    (h3 : pyLower (pyStrip raw) ≠ "/reset")
    (hb : build_payload cfg.provider cfg.api_key
        (history ++ [⟨"user", Json.str (pyStrip raw)⟩]) = some payload) :
    chat_step ⟨cfg, fs, history⟩ raw world =
      (match (send_request cfg.provider cfg.api_key payload world).result with
       | some response =>
         if response.truthy then
           some { state := ⟨cfg, fs, (history ++ [⟨"user", Json.str (pyStrip raw)⟩]) ++
                    [⟨"assistant", extract_reply cfg.provider response⟩]⟩,
                  exited := false,
                  requests := (send_request cfg.provider cfg.api_key payload world).requests,
                  output := (send_request cfg.provider cfg.api_key payload world).output ++
                    [.botLine cfg.bot (extract_reply cfg.provider response)] }
         else
           some { state := ⟨cfg, fs, history ++ [⟨"user", Json.str (pyStrip raw)⟩]⟩,
                  exited := false,
                  requests := (send_request cfg.provider cfg.api_key payload world).requests,
                  output := (send_request cfg.provider cfg.api_key payload world).output ++
                    [.failedResponse] }
       | none =>
         some { state := ⟨cfg, fs, history ++ [⟨"user", Json.str (pyStrip raw)⟩]⟩,
                exited := false,
                requests := (send_request cfg.provider cfg.api_key payload world).requests,
                output := (send_request cfg.provider cfg.api_key payload world).output ++
                  [.failedResponse] }) := by
  simp only [chat_step]
  rw [if_neg h1, if_neg h2, if_neg h3, hb]

/-- C8: on the `/reset` command (after strip, case-insensitively) the
transcript is emptied while the configuration and the persisted file
are untouched; no request is posted, the loop is not exited. -/
theorem reset_clears_history_only (s : SessionState) (raw : String)
    (world : HttpRequest → HttpResponse)
    (h : pyLower (pyStrip raw) = "/reset") :
    chat_step s raw world =
      some { state := { config := s.config, fileState := s.fileState, history := [] },
             exited := false, requests := [],
             output := [OutEvent.historyCleared] } := by
  simp only [chat_step, h]
  rfl

/-- Witness for C8 on a mixed-case `/reset` with surrounding blanks. -/
theorem reset_clears_history_only_witness :
    chat_step ⟨⟨"sk-key", "openai", "Neo", "Bot"⟩, FileState.absent,
        [⟨"user", Json.str "old"⟩, ⟨"assistant", Json.str "resp"⟩]⟩ " /ReSeT "
        (fun _ => ⟨200, "", none⟩) =
      some { state := ⟨⟨"sk-key", "openai", "Neo", "Bot"⟩, FileState.absent, []⟩,
             exited := false, requests := [],
             output := [OutEvent.historyCleared] } :=
  reset_clears_history_only _ _ _ (by rfl)

/-- C5: when the HTTP call answers a non-200 status, the user sees the
API-error line (whose rendering contains the status code) and the
failure notice, the transcript keeps the just-appended user turn and
gains no assistant turn, the configuration and file are untouched and
the loop is not exited. -/
theorem http_error_keeps_user_turn (cfg : Config) (fs : FileState)
    (history : List Turn) (raw text : String) (status : Nat) (jb : Option Json)
    (hp : cfg.provider = "openai" ∨ cfg.provider = "gemini" ∨
      cfg.provider = "grok" ∨ cfg.provider = "deepseek")
    (h1 : pyLower (pyStrip raw) ≠ "/exit")
    (h2 : pyLower (pyStrip raw) ≠ "/clear")
    (h3 : pyLower (pyStrip raw) ≠ "/reset")
    (hs : status ≠ 200) :
    ∃ req, chat_step ⟨cfg, fs, history⟩ raw (fun _ => ⟨status, text, jb⟩) =
        some { state := ⟨cfg, fs, history ++ [⟨"user", Json.str (pyStrip raw)⟩]⟩,
               exited := false, requests := [req],
               output := [.apiError status text, .failedResponse] } ∧
      ∃ a b, renderApiError status text = a ++ toString status ++ b := by
  obtain ⟨payload, hb⟩ := build_payload_known cfg.provider cfg.api_key
    (history ++ [⟨"user", Json.str (pyStrip raw)⟩]) hp (by simp)
  have hshape : ∃ req, send_request cfg.provider cfg.api_key payload
      (fun _ => ⟨status, text, jb⟩) =
      { result := none, requests := [req], output := [.apiError status text] } := by
    obtain ⟨ak, prov, u, bo⟩ := cfg
    rcases hp with h | h | h | h
    · have h9 : prov = "openai" := h
      subst h9
      exact ⟨_, sendOutcome_not200
        { url := "https://api.openai.com/v1/chat/completions", payload := payload,
          headers := DEFAULT_HEADERS ++ [("Authorization", "Bearer " ++ ak)] }
        (fun _ => ⟨status, text, jb⟩) hs⟩
    · have h9 : prov = "gemini" := h
      subst h9
      exact ⟨_, sendOutcome_not200
        { url := "https://generativelanguage.googleapis.com/v1beta/models/gemini-pro:generateContent" ++
            "?key=" ++ ak,
          payload := payload, headers := DEFAULT_HEADERS }
        (fun _ => ⟨status, text, jb⟩) hs⟩
    · have h9 : prov = "grok" := h
      subst h9
      exact ⟨_, sendOutcome_not200
        { url := "https://api.grok.x.ai/v1/chat/completions", payload := payload,
          headers := DEFAULT_HEADERS ++ [("Authorization", "Bearer " ++ ak)] }
        (fun _ => ⟨status, text, jb⟩) hs⟩
    · have h9 : prov = "deepseek" := h
      subst h9
      exact ⟨_, sendOutcome_not200
        { url := "https://api.deepseek.com/v1/chat/completions", payload := payload,
          headers := DEFAULT_HEADERS ++ [("Authorization", "Bearer " ++ ak)] }
        (fun _ => ⟨status, text, jb⟩) hs⟩
  obtain ⟨req, hsr⟩ := hshape
  refine ⟨req, ?_, "❌ API Error: ", " - " ++ text, String.append_assoc _ _ _⟩
  rw [chat_step_send cfg fs history raw _ payload h1 h2 h3 hb, hsr]
  rfl

/-- Witness for C5: a 500 answer on an OpenAI-configured session. -/
theorem http_error_keeps_user_turn_witness :
    ∃ req, chat_step ⟨⟨"sk-key", "openai", "Neo", "Bot"⟩, FileState.absent,
          [⟨"user", Json.str "earlier"⟩]⟩ "hello"
        (fun _ => ⟨500, "boom", none⟩) =
        some { state := ⟨⟨"sk-key", "openai", "Neo", "Bot"⟩, FileState.absent,
                 [⟨"user", Json.str "earlier"⟩, ⟨"user", Json.str "hello"⟩]⟩,
               exited := false, requests := [req],
               output := [.apiError 500 "boom", .failedResponse] } ∧
      ∃ a b, renderApiError 500 "boom" = a ++ toString 500 ++ b :=
  http_error_keeps_user_turn ⟨"sk-key", "openai", "Neo", "Bot"⟩ FileState.absent
    [⟨"user", Json.str "earlier"⟩] "hello" "boom" 500 none (Or.inl rfl)
    (by decide) (by decide) (by decide) (by decide)

/-- C10: a line that is empty after stripping is not skipped — the empty
string is appended to the transcript as a user turn and exactly one
request is posted, just as for non-empty input; the loop is not
exited. -/
theorem empty_input_not_skipped (cfg : Config) (fs : FileState)
    (history : List Turn) (raw : String) (world : HttpRequest → HttpResponse)
    (hp : cfg.provider = "openai" ∨ cfg.provider = "gemini" ∨
      cfg.provider = "grok" ∨ cfg.provider = "deepseek")
    (he : pyStrip raw = "") :
    ∃ res, chat_step ⟨cfg, fs, history⟩ raw world = some res ∧
      res.exited = false ∧
      (∃ req, res.requests = [req]) ∧
      (history ++ [⟨"user", Json.str ""⟩]) <+: res.state.history := by
  have h1 : pyLower (pyStrip raw) ≠ "/exit" := by rw [he]; decide
  have h2 : pyLower (pyStrip raw) ≠ "/clear" := by rw [he]; decide
  have h3 : pyLower (pyStrip raw) ≠ "/reset" := by rw [he]; decide
  obtain ⟨payload, hb⟩ := build_payload_known cfg.provider cfg.api_key
    (history ++ [⟨"user", Json.str (pyStrip raw)⟩]) hp (by simp)
  have hshape : ∃ req, send_request cfg.provider cfg.api_key payload world =
      sendOutcome req world := by
    obtain ⟨ak, prov, u, bo⟩ := cfg
    rcases hp with h | h | h | h
    · have h9 : prov = "openai" := h
      subst h9
      refine ⟨{ url := "https://api.openai.com/v1/chat/completions",
                payload := payload,
                headers := DEFAULT_HEADERS ++
                  [("Authorization", "Bearer " ++ ak)] }, rfl⟩
    · have h9 : prov = "gemini" := h
      subst h9
      refine ⟨{ url := "https://generativelanguage.googleapis.com/v1beta/models/gemini-pro:generateContent" ++
                  "?key=" ++ ak,
                payload := payload, headers := DEFAULT_HEADERS }, rfl⟩
    · have h9 : prov = "grok" := h
      subst h9
      refine ⟨{ url := "https://api.grok.x.ai/v1/chat/completions",
                payload := payload,
                headers := DEFAULT_HEADERS ++
                  [("Authorization", "Bearer " ++ ak)] }, rfl⟩
    · have h9 : prov = "deepseek" := h
      subst h9
      refine ⟨{ url := "https://api.deepseek.com/v1/chat/completions",
                payload := payload,
                headers := DEFAULT_HEADERS ++
                  [("Authorization", "Bearer " ++ ak)] }, rfl⟩
  obtain ⟨req, hsr⟩ := hshape
  rw [chat_step_send cfg fs history raw world payload h1 h2 h3 hb, he, hsr,
    sendOutcome_eq]
  by_cases hst : (world req).status = 200
  · rw [if_pos hst]
    cases hj : (world req).jsonBody with
    | none =>
      exact ⟨_, rfl, rfl, ⟨req, rfl⟩, ⟨[], List.append_nil _⟩⟩
    | some j =>
      cases ht : j.truthy with
      | false =>
        simp only [ht]
        exact ⟨_, rfl, rfl, ⟨req, rfl⟩, ⟨[], List.append_nil _⟩⟩
      | true =>
        simp only [ht]
        exact ⟨_, rfl, rfl, ⟨req, rfl⟩,
          ⟨[⟨"assistant", extract_reply cfg.provider j⟩], rfl⟩⟩
  · rw [if_neg hst]
    exact ⟨_, rfl, rfl, ⟨req, rfl⟩, ⟨[], List.append_nil _⟩⟩

/-- Witness for C10: whitespace-only input on an OpenAI session still
posts a request carrying the empty user turn. -/
theorem empty_input_not_skipped_witness :
    ∃ res, chat_step ⟨⟨"sk-key", "openai", "Neo", "Bot"⟩, FileState.absent, []⟩
        "   " (fun _ => ⟨500, "boom", none⟩) = some res ∧
      res.exited = false ∧
      (∃ req, res.requests = [req]) ∧
      [(⟨"user", Json.str ""⟩ : Turn)] <+: res.state.history :=
  empty_input_not_skipped ⟨"sk-key", "openai", "Neo", "Bot"⟩ FileState.absent
    [] "   " (fun _ => ⟨500, "boom", none⟩) (Or.inl rfl) (by decide)

/-- C4, counterexample to the claim as stated: a gemini session whose
200-response lacks the expected JSON path does not crash and keeps
looping, but it DOES append an assistant turn — the transcript after
the turn holds the user turn and an assistant turn carrying the
extraction-error text. -/
theorem extraction_failure_counterexample :
    (chat_step ⟨⟨"AIzaKey", "gemini", "Neo", "Bot"⟩, FileState.absent, []⟩ "hi"
        (fun _ => ⟨200, "ok", some (Json.obj [("error", Json.str "oops")])⟩)).map
      (fun r => (r.state.history, r.exited)) =
      some ([⟨"user", Json.str "hi"⟩, ⟨"assistant", Json.str extractErrorText⟩],
        false) :=
  rfl

/-- For each of the four known providers, when the provider's expected
reply path is absent from the body, `extract_reply` returns the
extraction-error text. -/
theorem extract_reply_error (provider : String) (b : Json)
    (hp : provider = "openai" ∨ provider = "gemini" ∨ provider = "grok" ∨
      provider = "deepseek")
    (hmiss1 : provider = "gemini" → candidatesPath b = none)
    (hmiss2 : provider ≠ "gemini" → choicesPath b = none) :
    extract_reply provider b = Json.str extractErrorText := by
  rcases hp with h | h | h | h <;> subst h
  · rw [show extract_reply "openai" b =
        (match choicesPath b with
         | some v => v
         | none => Json.str extractErrorText) from rfl,
      hmiss2 (by decide)]
  · rw [show extract_reply "gemini" b =
        (match candidatesPath b with
         | some v => v
         | none => Json.str extractErrorText) from rfl,
      hmiss1 rfl]
  · rw [show extract_reply "grok" b =
        (match choicesPath b with
         | some v => v
         | none => Json.str extractErrorText) from rfl,
      hmiss2 (by decide)]
  · rw [show extract_reply "deepseek" b =
        (match choicesPath b with
         | some v => v
         | none => Json.str extractErrorText) from rfl,
      hmiss2 (by decide)]

/-- C4, amended: for every known provider, on an extraction failure
(200 answer, truthy JSON body in which that provider's expected reply
path is absent) the session prints the extraction-error text as the bot
line and returns to awaiting input without crashing, but it appends
that error text to the transcript as an assistant turn (the user turn
is retained as well). -/
theorem extraction_error_appends_turn (cfg : Config) (fs : FileState)
    (history : List Turn) (raw text : String) (b : Json)
    (hp : cfg.provider = "openai" ∨ cfg.provider = "gemini" ∨
      cfg.provider = "grok" ∨ cfg.provider = "deepseek")
    (h1 : pyLower (pyStrip raw) ≠ "/exit")
    (h2 : pyLower (pyStrip raw) ≠ "/clear")
    (h3 : pyLower (pyStrip raw) ≠ "/reset")
    (htr : b.truthy = true)
    (hmiss1 : cfg.provider = "gemini" → candidatesPath b = none)
    (hmiss2 : cfg.provider ≠ "gemini" → choicesPath b = none) :
    ∃ req, chat_step ⟨cfg, fs, history⟩ raw (fun _ => ⟨200, text, some b⟩) =
      some { state := ⟨cfg, fs, (history ++ [⟨"user", Json.str (pyStrip raw)⟩]) ++
               [⟨"assistant", Json.str extractErrorText⟩]⟩,
             exited := false, requests := [req],
             output := [OutEvent.botLine cfg.bot (Json.str extractErrorText)] } := by
  have hex : extract_reply cfg.provider b = Json.str extractErrorText :=
    extract_reply_error cfg.provider b hp hmiss1 hmiss2
  obtain ⟨payload, hb⟩ := build_payload_known cfg.provider cfg.api_key
    (history ++ [⟨"user", Json.str (pyStrip raw)⟩]) hp (by simp)
  have hshape : ∃ req, send_request cfg.provider cfg.api_key payload
      (fun _ => ⟨200, text, some b⟩) =
      { result := some b, requests := [req], output := [] } := by
    obtain ⟨ak, prov, u, bo⟩ := cfg
    rcases hp with h | h | h | h
    · have h9 : prov = "openai" := h
      subst h9
      refine ⟨{ url := "https://api.openai.com/v1/chat/completions",
                payload := payload,
                headers := DEFAULT_HEADERS ++
                  [("Authorization", "Bearer " ++ ak)] }, rfl⟩
    · have h9 : prov = "gemini" := h
      subst h9
      refine ⟨{ url := "https://generativelanguage.googleapis.com/v1beta/models/gemini-pro:generateContent" ++
                  "?key=" ++ ak,
                payload := payload, headers := DEFAULT_HEADERS }, rfl⟩
    · have h9 : prov = "grok" := h
      subst h9
      refine ⟨{ url := "https://api.grok.x.ai/v1/chat/completions",
                payload := payload,
                headers := DEFAULT_HEADERS ++
                  [("Authorization", "Bearer " ++ ak)] }, rfl⟩
    · have h9 : prov = "deepseek" := h
      subst h9
      refine ⟨{ url := "https://api.deepseek.com/v1/chat/completions",
                payload := payload,
                headers := DEFAULT_HEADERS ++
                  [("Authorization", "Bearer " ++ ak)] }, rfl⟩
  obtain ⟨req, hsr⟩ := hshape
  refine ⟨req, ?_⟩
  rw [chat_step_send cfg fs history raw _ payload h1 h2 h3 hb, hsr]
  simp only [htr, hex]
  rfl

/-- Witness for C4 (amended) on a concrete OpenAI session whose
200-response lacks the `choices` path. -/
theorem extraction_error_appends_turn_witness :
    ∃ req, chat_step ⟨⟨"sk-key", "openai", "Neo", "Bot"⟩, FileState.absent, []⟩
        "hi" (fun _ => ⟨200, "ok", some (Json.obj [("error", Json.str "oops")])⟩) =
      some { state := ⟨⟨"sk-key", "openai", "Neo", "Bot"⟩, FileState.absent,
               [⟨"user", Json.str "hi"⟩,
                ⟨"assistant", Json.str extractErrorText⟩]⟩,
             exited := false, requests := [req],
             output := [OutEvent.botLine "Bot" (Json.str extractErrorText)] } :=
  extraction_error_appends_turn ⟨"sk-key", "openai", "Neo", "Bot"⟩
    FileState.absent [] "hi" "ok" (Json.obj [("error", Json.str "oops")])
    (Or.inl rfl) (by decide) (by decide) (by decide) rfl
    (fun _ => rfl) (fun _ => rfl)

end KaliGPT
